import Mathlib

/-!
Verification of the metafield-translation backend (tbc-translations-app).

The repository contains two variants of the orchestrator
`getOrCreateMetafieldTranslation`:

* `src/index.js` — the variant with a Google-Translate machine-translation
  fallback and two registration transports (a structured GraphQL mutation
  requiring a content digest, and a simple REST record).  Embedded below in
  namespace `GoogleVariant`.
* `src/unnamed/part_000` — the design variant without machine translation,
  which attempts a structured mutation directly with the original value.
  Embedded below in namespace `DesignVariant`.

Every external call (GraphQL query, HTTP POST, the translation API) is
modelled by an oracle recorded in an `Env` structure: the oracle holds the
outcome the outside world would produce for that call.  Each embedded
function returns its result together with a trace of `CallEvent`s, so that
claims about which calls are (not) performed are provable.
-/

/-- One entry of a `translations(locale:)` GraphQL result: `{key, value}`. -/
structure Translation where
  key : String
  value : String
  deriving DecidableEq, Repr

/-- The object returned by `getOrCreateMetafieldTranslation` on success. -/
structure TranslationResult where
  value : String
  locale : String
  isTranslated : Bool
  source : String
  message : Option String
  deriving DecidableEq, Repr

/-- One entry of the `translatableContent` list: `{key, value, digest, locale}`.
`digest` is nullable in the upstream schema, hence `Option`. -/
structure TranslatableContent where
  key : String
  value : String
  digest : Option String
  locale : String
  deriving DecidableEq, Repr

/-- The `translationsRegister` payload of the structured-mutation response
body: `{userErrors, translations}` (each user error is its message). -/
structure RegisterPayload where
  userErrors : List String
  translations : List Translation
  deriving DecidableEq, Repr

/-- A raw GraphQL response body, of which the design variant only inspects
the top-level `errors` field (`none` models an absent/null field). -/
structure GraphQLBody where
  errors : Option (List String)
  deriving DecidableEq, Repr

/-- External calls the orchestrator can perform, with the payload data that
matters for the specification. -/
inductive CallEvent where
  /-- The existing-translation GraphQL query (step 1). -/
  | checkQuery
  /-- The original-metafield-value GraphQL query (step 2). -/
  | originalQuery
  /-- The auto-translation trigger POST (step 3). -/
  | autoTrigger
  /-- The fixed settle delay, in milliseconds. -/
  | sleep (ms : Nat)
  /-- The re-run of the existing-translation query after the trigger. -/
  | recheckQuery
  /-- The machine-translation API call, with the text actually sent. -/
  | googleTranslate (text : String)
  /-- The translatable-content digest GraphQL query. -/
  | digestQuery
  /-- The structured `translationsRegister` mutation POST, with the value
  submitted. -/
  | mutationPost (value : String)
  /-- The simple REST record POST, with the value submitted. -/
  | restPost (value : String)
  deriving DecidableEq, Repr

/-- Worker for `jsSplit`: scans the input character list left to right;
`skip` counts separator characters still to be consumed after a match,
`cur` accumulates the current segment in reverse. -/
def jsSplitGo (sep : List Char) : List Char → Nat → List Char → List (List Char)
  | [], _, cur => [cur.reverse]
  | _ :: rest, skip+1, cur => jsSplitGo sep rest skip cur
  | c :: rest, 0, cur =>
    if List.isPrefixOf sep (c :: rest) then
      cur.reverse :: jsSplitGo sep rest (sep.length - 1) []
    else
      jsSplitGo sep rest 0 (c :: cur)

/-- JavaScript `String.prototype.split` with a non-empty string separator:
split at each leftmost non-overlapping occurrence of `sep`; the separator
is not included in the segments; a trailing separator yields a trailing
empty segment and splitting the empty string yields `[""]`. -/
def jsSplit (s sep : String) : List String :=
  (jsSplitGo sep.toList s.toList 0 []).map String.mk

/-- JavaScript truthiness of a nullable string: `null`/`undefined` and the
empty string are falsy. -/
def jsFalsy : Option String → Bool
  | none => true
  | some s => s.isEmpty

/-- The wrapper applied by the orchestrator's outer `catch`:
`Failed to get or create metafield translation: <message>`. -/
def wrapError (msg : String) : String :=
  "Failed to get or create metafield translation: " ++ msg

/-- The dotted metafield key `metafields.<namespace>.<key>`. -/
def dottedKey (ns key : String) : String :=
  "metafields." ++ ns ++ "." ++ key

/-- Whether a call event is the post-trigger recheck query. -/
def isRecheckEvent : CallEvent → Bool
  | .recheckQuery => true
  | _ => false

/-- Whether a call event is a settle delay. -/
def isSleepEvent : CallEvent → Bool
  | .sleep _ => true
  | _ => false

namespace GoogleVariant

/-- Outcomes the outside world produces for each call `src/index.js` can
make.  `Except.error` models a thrown transport error (for GraphQL queries,
the message already wrapped by `makeGraphQLRequest` as
`GraphQL request failed: ...`); `Except.ok` the parsed response data. -/
structure Env where
  /-- Result of the existing-translation query: the `translations` list. -/
  checkResponse : Except String (List Translation)
  /-- Result of the original-value query: `product.metafield?.value`
  (`none` models a null metafield). -/
  originalMetafield : Except String (Option String)
  /-- Result of the auto-translation trigger POST (`response.data`). -/
  autoTriggerResponse : Except String String
  /-- Result of re-running the existing-translation query after the
  trigger. -/
  recheckResponse : Except String (List Translation)
  /-- The Google Translate API: text, source language, target language to
  translated text; `Except.error` models a thrown request error. -/
  googleAPI : String → String → String → Except String String
  /-- Result of the translatable-content query: the `translatableContent`
  list. -/
  digestResponse : Except String (List TranslatableContent)
  /-- Result of the `translationsRegister` mutation POST:
  `data.data?.translationsRegister` (`none` models an absent payload). -/
  mutationResponse : Except String (Option RegisterPayload)
  /-- Result of the REST registration POST (`response.data`). -/
  restResponse : Except String String

/-- Embedding of `translateMetafieldContent` (src/index.js:52-68): split on
the reserved separator `~~`, send only the first part to the translation
API, reattach the remaining parts (rejoined with `~~`) when non-empty;
on API failure return the original value.  Also returns the call trace. -/
def translateMetafieldContent (googleAPI : String → String → String → Except String String)
    (originalValue targetLocale : String) : String × List CallEvent :=
  let parts := jsSplit originalValue "~~"
  let textPart := parts.headD ""
  let technicalPart := String.intercalate "~~" (parts.drop 1)
  match googleAPI textPart "en" targetLocale with
  | .error _ => (originalValue, [.googleTranslate textPart])
  | .ok translatedText =>
    (if technicalPart.isEmpty then translatedText
     else translatedText ++ "~~" ++ technicalPart,
     [.googleTranslate textPart])

/-- Embedding of `getTranslatableContentDigest` (src/index.js:71-95): query
all translatable content, find the dotted metafield key, return its digest;
any failure yields `none`. -/
def getTranslatableContentDigest (digestResponse : Except String (List TranslatableContent))
    (ns key : String) : Option String × List CallEvent :=
  match digestResponse with
  | .error _ => (none, [.digestQuery])
  | .ok contents =>
    match contents.find? (fun c => c.key == dottedKey ns key) with
    | some c => (c.digest, [.digestQuery])
    | none => (none, [.digestQuery])

/-- Embedding of `createTranslationWithCorrectMutation` (src/index.js:98-166):
resolve the digest first; without a (truthy) digest report failure without
posting the mutation.  Otherwise post; user errors in the body mean failure
even when the POST succeeded; otherwise return the first registered
translation if any. -/
def createTranslationWithCorrectMutation (env : Env)
    (ns key translatedValue : String) : Option Translation × List CallEvent :=
  let digestOut := getTranslatableContentDigest env.digestResponse ns key
  if jsFalsy digestOut.1 then (none, digestOut.2)
  else
    match env.mutationResponse with
    | .error _ => (none, digestOut.2 ++ [.mutationPost translatedValue])
    | .ok payload =>
      match payload with
      | none => (none, digestOut.2 ++ [.mutationPost translatedValue])
      | some p =>
        if p.userErrors.length > 0 then
          (none, digestOut.2 ++ [.mutationPost translatedValue])
        else if p.translations.length > 0 then
          (p.translations.head?, digestOut.2 ++ [.mutationPost translatedValue])
        else
          (none, digestOut.2 ++ [.mutationPost translatedValue])

/-- Embedding of `registerTranslationInShopify` (src/index.js:170-202): the
REST fallback; a thrown transport error is caught and reported as `none`. -/
def registerTranslationInShopify (env : Env)
    (translatedValue : String) : Option String × List CallEvent :=
  match env.restResponse with
  | .error _ => (none, [.restPost translatedValue])
  | .ok data => (some data, [.restPost translatedValue])

/-- Embedding of `triggerTranslateAndAdapt` (src/index.js:205-226): one
endpoint attempt; transport failure yields `null`. -/
def triggerTranslateAndAdapt (env : Env) : Option String × List CallEvent :=
  match env.autoTriggerResponse with
  | .error _ => (none, [.autoTrigger])
  | .ok data => (some data, [.autoTrigger])

/-- Steps 4-7 of the orchestrator (src/index.js:292-335): machine-translate
the original value, then try the structured mutation, then the REST record,
and on total registration failure still return the machine translation with
`source = google_translate_only`. -/
def googleTranslateSteps (env : Env)
    (ns key targetLocale originalValue : String) :
    Except String TranslationResult × List CallEvent :=
  let gOut := translateMetafieldContent env.googleAPI originalValue targetLocale
  let googleTranslatedValue := gOut.1
  let mOut := createTranslationWithCorrectMutation env ns key googleTranslatedValue
  match mOut.1 with
  | some _ =>
    (.ok { value := googleTranslatedValue, locale := targetLocale,
           isTranslated := true, source := "google_translate_registered_graphql",
           message := some "Translation created with Google Translate and registered in Shopify via GraphQL" },
     gOut.2 ++ mOut.2)
  | none =>
    let rOut := registerTranslationInShopify env googleTranslatedValue
    match rOut.1 with
    | some _ =>
      (.ok { value := googleTranslatedValue, locale := targetLocale,
             isTranslated := true, source := "google_translate_registered_rest",
             message := some "Translation created with Google Translate and registered in Shopify via REST" },
       gOut.2 ++ mOut.2 ++ rOut.2)
    | none =>
      (.ok { value := googleTranslatedValue, locale := targetLocale,
             isTranslated := true, source := "google_translate_only",
             message := some "Translation created with Google Translate (not registered in Shopify due to API limitations)" },
       gOut.2 ++ mOut.2 ++ rOut.2)

/-- Embedding of the orchestrator `getOrCreateMetafieldTranslation`
(src/index.js:229-340).  Any error thrown inside the body is wrapped by the
outer catch via `wrapError`. -/
def getOrCreateMetafieldTranslation (env : Env)
    (ns key targetLocale : String) :
    Except String TranslationResult × List CallEvent :=
  match env.checkResponse with
  | .error e => (.error (wrapError e), [.checkQuery])
  | .ok translations =>
    match translations.find? (fun t => t.key == dottedKey ns key) with
    | some existingTranslation =>
      (.ok { value := existingTranslation.value, locale := targetLocale,
             isTranslated := true, source := "existing_shopify_translation",
             message := none },
       [.checkQuery])
    | none =>
      match env.originalMetafield with
      | .error e => (.error (wrapError e), [.checkQuery, .originalQuery])
      | .ok metafieldValue =>
        if jsFalsy metafieldValue then
          (.error (wrapError "Metafield not found"), [.checkQuery, .originalQuery])
        else
          let originalValue := metafieldValue.getD ""
          let tOut := triggerTranslateAndAdapt env
          let trace0 := [CallEvent.checkQuery, CallEvent.originalQuery] ++ tOut.2
          if jsFalsy tOut.1 then
            let sOut := googleTranslateSteps env ns key targetLocale originalValue
            (sOut.1, trace0 ++ sOut.2)
          else
            match env.recheckResponse with
            | .error e =>
              (.error (wrapError e), trace0 ++ [.sleep 5000, .recheckQuery])
            | .ok afterTranslations =>
              match afterTranslations.find? (fun t => t.key == dottedKey ns key) with
              | some autoTranslation =>
                (.ok { value := autoTranslation.value, locale := targetLocale,
                       isTranslated := true, source := "shopify_auto_translation",
                       message := none },
                 trace0 ++ [.sleep 5000, .recheckQuery])
              | none =>
                let sOut := googleTranslateSteps env ns key targetLocale originalValue
                (sOut.1, trace0 ++ [.sleep 5000, .recheckQuery] ++ sOut.2)

end GoogleVariant

namespace DesignVariant

/-- Outcomes the outside world produces for each call `src/unnamed/part_000`
can make. -/
structure Env where
  /-- Result of the existing-translation query: the `translations` list. -/
  checkResponse : Except String (List Translation)
  /-- Result of the original-value query: `product.metafield?.value`
  (`none` models a null metafield). -/
  originalMetafield : Except String (Option String)
  /-- Outcomes of the three auto-translation endpoint attempts, in the
  fixed order the source tries them. -/
  autoEndpointResponses : List (Except String String)
  /-- Result of re-running the existing-translation query after the
  trigger. -/
  recheckResponse : Except String (List Translation)
  /-- Result of the `translationsRegister` mutation POST: the raw response
  body (`response.data`). -/
  mutationResponse : Except String GraphQLBody

/-- Embedding of `triggerTranslateAndAdapt` (src/unnamed/part_000:40-90):
probe the endpoint shapes in order, return the first successful response
data, `null` when all fail. -/
def triggerTranslateAndAdapt : List (Except String String) → Option String
  | [] => none
  | .ok data :: _ => some data
  | .error _ :: rest => triggerTranslateAndAdapt rest

/-- Embedding of `createTranslationWithMutation`
(src/unnamed/part_000:93-144): post the mutation with the original value;
a thrown transport error is caught and reported as `none`, otherwise the
raw response body is returned. -/
def createTranslationWithMutation (mutationResponse : Except String GraphQLBody)
    (originalValue : String) : Option GraphQLBody × List CallEvent :=
  match mutationResponse with
  | .error _ => (none, [.mutationPost originalValue])
  | .ok body => (some body, [.mutationPost originalValue])

/-- The tail of the part_000 orchestrator (src/unnamed/part_000:206-227):
attempt the structured mutation with the original untranslated value;
success (no top-level `errors`) yields `mutation_created` with a
manual-edit message, failure yields `original_fallback` with locale forced
to `en` and a manual-creation message. -/
def mutationSteps (env : Env) (originalValue targetLocale : String) :
    Except String TranslationResult × List CallEvent :=
  let mOut := createTranslationWithMutation env.mutationResponse originalValue
  match mOut.1 with
  | some body =>
    if body.errors.isNone then
      (.ok { value := originalValue, locale := targetLocale,
             isTranslated := false, source := "mutation_created",
             message := some "Translation entry created. You may need to edit it manually in Translate & Adapt app." },
       mOut.2)
    else
      (.ok { value := originalValue, locale := "en",
             isTranslated := false, source := "original_fallback",
             message := some "Could not create translation automatically. Please create it manually in Translate & Adapt app." },
       mOut.2)
  | none =>
    (.ok { value := originalValue, locale := "en",
           isTranslated := false, source := "original_fallback",
           message := some "Could not create translation automatically. Please create it manually in Translate & Adapt app." },
     mOut.2)

/-- Embedding of the orchestrator `getOrCreateMetafieldTranslation`
(src/unnamed/part_000:146-232). -/
def getOrCreateMetafieldTranslation (env : Env)
    (ns key targetLocale : String) :
    Except String TranslationResult × List CallEvent :=
  match env.checkResponse with
  | .error e => (.error (wrapError e), [.checkQuery])
  | .ok translations =>
    match translations.find? (fun t => t.key == dottedKey ns key) with
    | some existingTranslation =>
      (.ok { value := existingTranslation.value, locale := targetLocale,
             isTranslated := true, source := "existing_translation",
             message := none },
       [.checkQuery])
    | none =>
      match env.originalMetafield with
      | .error e => (.error (wrapError e), [.checkQuery, .originalQuery])
      | .ok metafieldValue =>
        if jsFalsy metafieldValue then
          (.error (wrapError "Metafield not found"), [.checkQuery, .originalQuery])
        else
          let originalValue := metafieldValue.getD ""
          let autoTranslateResult := triggerTranslateAndAdapt env.autoEndpointResponses
          let trace0 := [CallEvent.checkQuery, CallEvent.originalQuery, CallEvent.autoTrigger]
          if jsFalsy autoTranslateResult then
            let sOut := mutationSteps env originalValue targetLocale
            (sOut.1, trace0 ++ sOut.2)
          else
            match env.recheckResponse with
            | .error e =>
              (.error (wrapError e), trace0 ++ [.sleep 5000, .recheckQuery])
            | .ok afterTranslations =>
              match afterTranslations.find? (fun t => t.key == dottedKey ns key) with
              | some autoTranslation =>
                (.ok { value := autoTranslation.value, locale := targetLocale,
                       isTranslated := true, source := "auto_translation_created",
                       message := none },
                 trace0 ++ [.sleep 5000, .recheckQuery])
              | none =>
                let sOut := mutationSteps env originalValue targetLocale
                (sOut.1, trace0 ++ [.sleep 5000, .recheckQuery] ++ sOut.2)

end DesignVariant

/-! Concrete fixtures used to instantiate the theorems below. -/

/-- A concrete stored translation under the dotted key `metafields.custom.desc`. -/
def sampleTranslation : Translation :=
  { key := "metafields.custom.desc", value := "Hallo Welt" }

/-- A concrete translatable-content entry carrying a digest for
`metafields.custom.desc`. -/
def sampleContent : TranslatableContent :=
  { key := "metafields.custom.desc", value := "Hello World",
    digest := some "digest123", locale := "en" }

/-- Baseline Google-variant world: no existing translation, original value
present, auto-translation trigger fails, the translation API succeeds,
no digest available, both registration transports fail. -/
def gEnvBase : GoogleVariant.Env :=
  { checkResponse := .ok []
    originalMetafield := .ok (some "Hello World")
    autoTriggerResponse := .error "HTTP 404"
    recheckResponse := .ok []
    googleAPI := fun _ _ _ => Except.ok "Hallo Welt"
    digestResponse := .ok []
    mutationResponse := .error "HTTP 500"
    restResponse := .error "HTTP 500" }

/-- Google-variant world with an existing target-locale translation. -/
def gEnvExisting : GoogleVariant.Env :=
  { gEnvBase with checkResponse := .ok [sampleTranslation] }

/-- Google-variant world where the metafield is null upstream. -/
def gEnvNotFound : GoogleVariant.Env :=
  { gEnvBase with originalMetafield := .ok none }

/-- Google-variant world where the metafield exists with an empty value. -/
def gEnvEmptyValue : GoogleVariant.Env :=
  { gEnvBase with originalMetafield := .ok (some "") }

/-- Google-variant world where the trigger acknowledges and the recheck
finds the translation. -/
def gEnvTriggerHit : GoogleVariant.Env :=
  { gEnvBase with autoTriggerResponse := .ok "ack",
                  recheckResponse := .ok [sampleTranslation] }

/-- Google-variant world where the trigger acknowledges but the recheck
still finds nothing. -/
def gEnvTriggerMiss : GoogleVariant.Env :=
  { gEnvBase with autoTriggerResponse := .ok "ack" }

/-- Google-variant world where a digest exists and the mutation POST
succeeds at the transport level but reports field-level user errors. -/
def gEnvUserErrors : GoogleVariant.Env :=
  { gEnvBase with
      digestResponse := .ok [sampleContent]
      mutationResponse := .ok (some { userErrors := ["field not translatable"],
                                      translations := [] }) }

/-- Baseline design-variant world: no existing translation, original value
present, every trigger endpoint fails, the mutation POST throws. -/
def dEnvBase : DesignVariant.Env :=
  { checkResponse := .ok []
    originalMetafield := .ok (some "Red shoes")
    autoEndpointResponses := [.error "HTTP 404", .error "HTTP 404", .error "HTTP 404"]
    recheckResponse := .ok []
    mutationResponse := .error "HTTP 500" }

/-- Design-variant world with an existing target-locale translation. -/
def dEnvExisting : DesignVariant.Env :=
  { dEnvBase with checkResponse := .ok [sampleTranslation] }

/-- Design-variant world where the metafield is null upstream. -/
def dEnvNotFound : DesignVariant.Env :=
  { dEnvBase with originalMetafield := .ok none }

/-- Design-variant world where the metafield exists with an empty value. -/
def dEnvEmptyValue : DesignVariant.Env :=
  { dEnvBase with originalMetafield := .ok (some "") }

/-- Design-variant world where the mutation POST returns a body carrying
top-level GraphQL errors. -/
def dEnvMutBodyErrors : DesignVariant.Env :=
  { dEnvBase with mutationResponse := .ok { errors := some ["access denied"] } }

/-- Design-variant world where the mutation POST returns a clean body. -/
def dEnvMutOk : DesignVariant.Env :=
  { dEnvBase with mutationResponse := .ok { errors := none } }

/-- Design-variant world where the trigger acknowledges and the recheck
finds the translation. -/
def dEnvTriggerHit : DesignVariant.Env :=
  { dEnvBase with autoEndpointResponses := [.ok "ack"],
                  recheckResponse := .ok [sampleTranslation] }

/-- Design-variant world where the trigger acknowledges but the recheck
still finds nothing. -/
def dEnvTriggerMiss : DesignVariant.Env :=
  { dEnvBase with autoEndpointResponses := [.ok "ack"] }

/-! Helper lemmas about the traces and results of the sub-mechanisms. -/

/-- The machine-translation adapter consults the API exactly once, on the
text preceding the first separator. -/
theorem translateMetafieldContent_trace
    (g : String → String → String → Except String String) (v loc : String) :
    (GoogleVariant.translateMetafieldContent g v loc).2 =
      [CallEvent.googleTranslate ((jsSplit v "~~").headD "")] := by
  unfold GoogleVariant.translateMetafieldContent
  cases hg : g ((jsSplit v "~~").headD "") "en" loc <;> simp only [hg]

/-- The digest lookup performs exactly the digest query. -/
theorem getTranslatableContentDigest_trace
    (d : Except String (List TranslatableContent)) (ns key : String) :
    (GoogleVariant.getTranslatableContentDigest d ns key).2 = [CallEvent.digestQuery] := by
  unfold GoogleVariant.getTranslatableContentDigest
  split
  · rfl
  · split <;> rfl

/-- The structured mutation transport performs either only the digest query
or the digest query followed by one mutation POST. -/
theorem createTranslationWithCorrectMutation_trace (env : GoogleVariant.Env)
    (ns key tv : String) :
    ((GoogleVariant.createTranslationWithCorrectMutation env ns key tv).2 =
      [CallEvent.digestQuery]) ∨
    ((GoogleVariant.createTranslationWithCorrectMutation env ns key tv).2 =
      [CallEvent.digestQuery, CallEvent.mutationPost tv]) := by
  unfold GoogleVariant.createTranslationWithCorrectMutation
  by_cases hd : jsFalsy (GoogleVariant.getTranslatableContentDigest env.digestResponse ns key).1 = true
  · left
    simp [hd, getTranslatableContentDigest_trace]
  · right
    rw [Bool.not_eq_true] at hd
    simp only [hd, Bool.false_eq_true, if_false, getTranslatableContentDigest_trace]
    repeat' split
    all_goals simp [getTranslatableContentDigest_trace]

/-- The auto-translation trigger performs exactly one trigger POST. -/
theorem triggerTranslateAndAdapt_trace (env : GoogleVariant.Env) :
    (GoogleVariant.triggerTranslateAndAdapt env).2 = [CallEvent.autoTrigger] := by
  unfold GoogleVariant.triggerTranslateAndAdapt
  cases h : env.autoTriggerResponse <;> simp only [h]

/-- Steps 4-7 never perform a recheck query or a settle delay. -/
theorem googleTranslateSteps_trace_countP (env : GoogleVariant.Env)
    (ns key loc ov : String) :
    ((GoogleVariant.googleTranslateSteps env ns key loc ov).2).countP isRecheckEvent = 0 ∧
    ((GoogleVariant.googleTranslateSteps env ns key loc ov).2).countP isSleepEvent = 0 := by
  unfold GoogleVariant.googleTranslateSteps GoogleVariant.registerTranslationInShopify
  rcases createTranslationWithCorrectMutation_trace env ns key
      ((GoogleVariant.translateMetafieldContent env.googleAPI ov loc).1) with h | h <;>
    cases hm : (GoogleVariant.createTranslationWithCorrectMutation env ns key
        (GoogleVariant.translateMetafieldContent env.googleAPI ov loc).1).1 <;>
      cases hr : env.restResponse <;>
        simp [h, hm, hr, translateMetafieldContent_trace, isRecheckEvent, isSleepEvent,
          List.countP_cons, List.countP_append]

/-- Steps 4-7 always return a success result, whatever the oracles do. -/
theorem googleTranslateSteps_result_isOk (env : GoogleVariant.Env)
    (ns key loc ov : String) :
    ((GoogleVariant.googleTranslateSteps env ns key loc ov).1).isOk = true := by
  unfold GoogleVariant.googleTranslateSteps GoogleVariant.registerTranslationInShopify
  cases hm : (GoogleVariant.createTranslationWithCorrectMutation env ns key
      (GoogleVariant.translateMetafieldContent env.googleAPI ov loc).1).1 <;>
    cases hr : env.restResponse <;>
      simp [hm, hr, Except.isOk, Except.toBool]

/-- When both registration transports fail, steps 4-7 return the machine
translation tagged `google_translate_only`. -/
theorem googleTranslateSteps_registration_failure (env : GoogleVariant.Env)
    (ns key loc ov e : String)
    (hMut : (GoogleVariant.createTranslationWithCorrectMutation env ns key
      ((GoogleVariant.translateMetafieldContent env.googleAPI ov loc).1)).1 = none)
    (hRest : env.restResponse = .error e) :
    (GoogleVariant.googleTranslateSteps env ns key loc ov).1 =
      .ok { value := (GoogleVariant.translateMetafieldContent env.googleAPI ov loc).1,
            locale := loc, isTranslated := true, source := "google_translate_only",
            message := some "Translation created with Google Translate (not registered in Shopify due to API limitations)" } := by
  unfold GoogleVariant.googleTranslateSteps GoogleVariant.registerTranslationInShopify
  simp only [hMut, hRest]

/-- The design-variant mutation step performs exactly one mutation POST,
submitting the original value. -/
theorem mutationSteps_trace (env : DesignVariant.Env) (ov loc : String) :
    (DesignVariant.mutationSteps env ov loc).2 = [CallEvent.mutationPost ov] := by
  unfold DesignVariant.mutationSteps DesignVariant.createTranslationWithMutation
  cases h : env.mutationResponse
  · simp only [h]
  · simp only [h]
    split <;> rfl

/-! The claims. -/

/-- Claim C2: when the first query finds a translation whose key equals the
dotted metafield key in the target locale, both orchestrator variants return
immediately with that translation's value unchanged, `locale = targetLocale`,
`isTranslated = true` and the existing-translation source tag, performing no
further calls (the trace is exactly the one check query). -/
theorem claim_C2 (envG : GoogleVariant.Env) (envD : DesignVariant.Env)
    (ns key targetLocale : String) (tsG tsD : List Translation) (exG exD : Translation)
    (hG1 : envG.checkResponse = .ok tsG)
    (hG2 : tsG.find? (fun t => t.key == dottedKey ns key) = some exG)
    (hD1 : envD.checkResponse = .ok tsD)
    (hD2 : tsD.find? (fun t => t.key == dottedKey ns key) = some exD) :
    GoogleVariant.getOrCreateMetafieldTranslation envG ns key targetLocale =
      (.ok { value := exG.value, locale := targetLocale, isTranslated := true,
             source := "existing_shopify_translation", message := none },
       [.checkQuery]) ∧
    DesignVariant.getOrCreateMetafieldTranslation envD ns key targetLocale =
      (.ok { value := exD.value, locale := targetLocale, isTranslated := true,
             source := "existing_translation", message := none },
       [.checkQuery]) := by
  refine ⟨?_, ?_⟩
  · unfold GoogleVariant.getOrCreateMetafieldTranslation
    rw [hG1]
    simp [hG2]
  · unfold DesignVariant.getOrCreateMetafieldTranslation
    rw [hD1]
    simp [hD2]

/-- Witness for C2 at a concrete world. -/
theorem claim_C2_witness :
    GoogleVariant.getOrCreateMetafieldTranslation gEnvExisting "custom" "desc" "de" =
      (.ok { value := "Hallo Welt", locale := "de", isTranslated := true,
             source := "existing_shopify_translation", message := none },
       [.checkQuery]) ∧
    DesignVariant.getOrCreateMetafieldTranslation dEnvExisting "custom" "desc" "de" =
      (.ok { value := "Hallo Welt", locale := "de", isTranslated := true,
             source := "existing_translation", message := none },
       [.checkQuery]) :=
  claim_C2 gEnvExisting dEnvExisting "custom" "desc" "de"
    [sampleTranslation] [sampleTranslation] sampleTranslation sampleTranslation
    rfl (by decide) rfl (by decide)

/-- Claim C3: when no existing translation is found and the original
metafield value is absent, both variants fail with the wrapped
`Metafield not found` error and perform no trigger, translation or
registration call; and (only-fatal-path) once the check, original and
recheck queries all succeed with a present original value, the Google
variant returns a success whatever every other oracle does. -/
theorem claim_C3 (envG envP : GoogleVariant.Env) (envD : DesignVariant.Env)
    (ns key targetLocale : String) (tsG tsD tsP tsR : List Translation) (ov : String)
    (hG1 : envG.checkResponse = .ok tsG)
    (hG2 : tsG.find? (fun t => t.key == dottedKey ns key) = none)
    (hG3 : envG.originalMetafield = .ok none)
    (hD1 : envD.checkResponse = .ok tsD)
    (hD2 : tsD.find? (fun t => t.key == dottedKey ns key) = none)
    (hD3 : envD.originalMetafield = .ok none)
    (hP1 : envP.checkResponse = .ok tsP)
    (hP2 : tsP.find? (fun t => t.key == dottedKey ns key) = none)
    (hP3 : envP.originalMetafield = .ok (some ov))
    (hP4 : jsFalsy (some ov) = false)
    (hP5 : envP.recheckResponse = .ok tsR) :
    GoogleVariant.getOrCreateMetafieldTranslation envG ns key targetLocale =
      (.error (wrapError "Metafield not found"), [.checkQuery, .originalQuery]) ∧
    DesignVariant.getOrCreateMetafieldTranslation envD ns key targetLocale =
      (.error (wrapError "Metafield not found"), [.checkQuery, .originalQuery]) ∧
    ((GoogleVariant.getOrCreateMetafieldTranslation envP ns key targetLocale).1).isOk = true := by
  refine ⟨?_, ?_, ?_⟩
  · unfold GoogleVariant.getOrCreateMetafieldTranslation
    rw [hG1]
    simp [hG2, hG3, jsFalsy]
  · unfold DesignVariant.getOrCreateMetafieldTranslation
    rw [hD1]
    simp [hD2, hD3, jsFalsy]
  · unfold GoogleVariant.getOrCreateMetafieldTranslation
    rw [hP1]
    simp only [hP2, hP3, hP4, Bool.false_eq_true, if_false, Option.getD_some]
    by_cases htr : jsFalsy (GoogleVariant.triggerTranslateAndAdapt envP).1 = true
    · simp [htr, googleTranslateSteps_result_isOk]
    · rw [Bool.not_eq_true] at htr
      simp only [htr, Bool.false_eq_true, if_false, hP5]
      cases hf : tsR.find? (fun t => t.key == dottedKey ns key)
      · simp only [hf]
        exact googleTranslateSteps_result_isOk envP ns key targetLocale ov
      · simp only [hf]
        rfl

/-- Witness for C3 at concrete worlds. -/
theorem claim_C3_witness :
    GoogleVariant.getOrCreateMetafieldTranslation gEnvNotFound "custom" "desc" "de" =
      (.error (wrapError "Metafield not found"), [.checkQuery, .originalQuery]) ∧
    DesignVariant.getOrCreateMetafieldTranslation dEnvNotFound "custom" "desc" "de" =
      (.error (wrapError "Metafield not found"), [.checkQuery, .originalQuery]) ∧
    ((GoogleVariant.getOrCreateMetafieldTranslation gEnvBase "custom" "desc" "de").1).isOk = true :=
  claim_C3 gEnvNotFound gEnvBase dEnvNotFound "custom" "desc" "de"
    [] [] [] [] "Hello World"
    rfl rfl rfl rfl rfl rfl rfl rfl rfl (by decide) rfl

/-- Claim C10: an original metafield value equal to the empty string is
treated as absent — both variants take the fatal `Metafield not found` path
and perform no further calls, because the absence check is JavaScript
falsiness of the value. -/
theorem claim_C10 (envG : GoogleVariant.Env) (envD : DesignVariant.Env)
    (ns key targetLocale : String) (tsG tsD : List Translation)
    (hG1 : envG.checkResponse = .ok tsG)
    (hG2 : tsG.find? (fun t => t.key == dottedKey ns key) = none)
    (hG3 : envG.originalMetafield = .ok (some ""))
    (hD1 : envD.checkResponse = .ok tsD)
    (hD2 : tsD.find? (fun t => t.key == dottedKey ns key) = none)
    (hD3 : envD.originalMetafield = .ok (some "")) :
    GoogleVariant.getOrCreateMetafieldTranslation envG ns key targetLocale =
      (.error (wrapError "Metafield not found"), [.checkQuery, .originalQuery]) ∧
    DesignVariant.getOrCreateMetafieldTranslation envD ns key targetLocale =
      (.error (wrapError "Metafield not found"), [.checkQuery, .originalQuery]) := by
  have hfv : jsFalsy (some "") = true := by decide
  refine ⟨?_, ?_⟩
  · unfold GoogleVariant.getOrCreateMetafieldTranslation
    rw [hG1]
    simp [hG2, hG3, hfv]
  · unfold DesignVariant.getOrCreateMetafieldTranslation
    rw [hD1]
    simp [hD2, hD3, hfv]

/-- Witness for C10 at concrete worlds. -/
theorem claim_C10_witness :
    GoogleVariant.getOrCreateMetafieldTranslation gEnvEmptyValue "custom" "desc" "de" =
      (.error (wrapError "Metafield not found"), [.checkQuery, .originalQuery]) ∧
    DesignVariant.getOrCreateMetafieldTranslation dEnvEmptyValue "custom" "desc" "de" =
      (.error (wrapError "Metafield not found"), [.checkQuery, .originalQuery]) :=
  claim_C10 gEnvEmptyValue dEnvEmptyValue "custom" "desc" "de" [] []
    rfl rfl rfl rfl rfl rfl

/-- Claim C5: when the machine-translation API call fails,
`translateMetafieldContent` returns the original input value unchanged
instead of propagating the failure. -/
theorem claim_C5 (g : String → String → String → Except String String)
    (v targetLocale e : String)
    (hg : g ((jsSplit v "~~").headD "") "en" targetLocale = .error e) :
    (GoogleVariant.translateMetafieldContent g v targetLocale).1 = v := by
  unfold GoogleVariant.translateMetafieldContent
  simp only [hg]

/-- Witness for C5 at a concrete input. -/
theorem claim_C5_witness :
    (GoogleVariant.translateMetafieldContent (fun _ _ _ => Except.error "quota exceeded")
      "Hello~~REF123~~X9" "de").1 = "Hello~~REF123~~X9" :=
  claim_C5 (fun _ _ _ => Except.error "quota exceeded") "Hello~~REF123~~X9" "de"
    "quota exceeded" rfl

/-- Claim C7: when the digest lookup yields no (truthy) digest, the
structured mutation transport reports failure immediately and its trace is
exactly the digest query — the `translationsRegister` POST is never
performed. -/
theorem claim_C7 (env : GoogleVariant.Env) (ns key tv : String)
    (hd : jsFalsy (GoogleVariant.getTranslatableContentDigest env.digestResponse ns key).1 = true) :
    GoogleVariant.createTranslationWithCorrectMutation env ns key tv =
      (none, [CallEvent.digestQuery]) := by
  unfold GoogleVariant.createTranslationWithCorrectMutation
  simp [hd, getTranslatableContentDigest_trace]

/-- Witness for C7 at a concrete world with no digest available. -/
theorem claim_C7_witness :
    GoogleVariant.createTranslationWithCorrectMutation gEnvBase "custom" "desc" "Hallo Welt" =
      (none, [CallEvent.digestQuery]) :=
  claim_C7 gEnvBase "custom" "desc" "Hallo Welt" (by decide)

/-- Claim C8: a mutation response whose body contains one or more
field-level user errors is treated as failure (no result) even though the
HTTP transport call itself succeeded; the trace shows the POST happened. -/
theorem claim_C8 (env : GoogleVariant.Env) (ns key tv d : String) (p : RegisterPayload)
    (hd : (GoogleVariant.getTranslatableContentDigest env.digestResponse ns key).1 = some d)
    (hd2 : jsFalsy (some d) = false)
    (hm : env.mutationResponse = .ok (some p))
    (he : p.userErrors.length > 0) :
    GoogleVariant.createTranslationWithCorrectMutation env ns key tv =
      (none, [CallEvent.digestQuery, CallEvent.mutationPost tv]) := by
  unfold GoogleVariant.createTranslationWithCorrectMutation
  simp [hd, hd2, hm, he, getTranslatableContentDigest_trace]

/-- Witness for C8 at a concrete world with a digest and user errors. -/
theorem claim_C8_witness :
    GoogleVariant.createTranslationWithCorrectMutation gEnvUserErrors "custom" "desc" "Hallo Welt" =
      (none, [CallEvent.digestQuery, CallEvent.mutationPost "Hallo Welt"]) :=
  claim_C8 gEnvUserErrors "custom" "desc" "Hallo Welt" "digest123"
    { userErrors := ["field not translatable"], translations := [] }
    (by decide) (by decide) rfl (by decide)

/-- Claim C1: in the Google variant, whenever an original value was found,
the auto-translation step yields nothing, and both registration transports
fail, the orchestrator does not raise: it returns the machine-translated
value with `isTranslated = true`, `source = google_translate_only` and a
non-empty explanatory message. -/
theorem claim_C1 (env : GoogleVariant.Env) (ns key targetLocale : String)
    (ts : List Translation) (ov e : String)
    (h1 : env.checkResponse = .ok ts)
    (h2 : ts.find? (fun t => t.key == dottedKey ns key) = none)
    (h3 : env.originalMetafield = .ok (some ov))
    (hov : jsFalsy (some ov) = false)
    (hAuto : jsFalsy (GoogleVariant.triggerTranslateAndAdapt env).1 = true ∨
      ∃ ts2, env.recheckResponse = .ok ts2 ∧
        ts2.find? (fun t => t.key == dottedKey ns key) = none)
    (hMut : (GoogleVariant.createTranslationWithCorrectMutation env ns key
      ((GoogleVariant.translateMetafieldContent env.googleAPI ov targetLocale).1)).1 = none)
    (hRest : env.restResponse = .error e) :
    (GoogleVariant.getOrCreateMetafieldTranslation env ns key targetLocale).1 =
      .ok { value := (GoogleVariant.translateMetafieldContent env.googleAPI ov targetLocale).1,
            locale := targetLocale, isTranslated := true, source := "google_translate_only",
            message := some "Translation created with Google Translate (not registered in Shopify due to API limitations)" } ∧
    ("Translation created with Google Translate (not registered in Shopify due to API limitations)" : String) ≠ "" := by
  refine ⟨?_, by decide⟩
  have hsteps := googleTranslateSteps_registration_failure env ns key targetLocale ov e hMut hRest
  unfold GoogleVariant.getOrCreateMetafieldTranslation
  rw [h1]
  simp only [h2, h3, hov, Bool.false_eq_true, if_false, Option.getD_some]
  by_cases htr : jsFalsy (GoogleVariant.triggerTranslateAndAdapt env).1 = true
  · simp [htr, hsteps]
  · rw [Bool.not_eq_true] at htr
    rcases hAuto with hA | ⟨ts2, hr, hfind2⟩
    · rw [htr] at hA
      exact absurd hA (by simp)
    · simp [htr, hr, hfind2, hsteps]

/-- Witness for C1 at a concrete world where everything downstream fails. -/
theorem claim_C1_witness :
    (GoogleVariant.getOrCreateMetafieldTranslation gEnvBase "custom" "desc" "de").1 =
      .ok { value := "Hallo Welt", locale := "de", isTranslated := true,
            source := "google_translate_only",
            message := some "Translation created with Google Translate (not registered in Shopify due to API limitations)" } ∧
    ("Translation created with Google Translate (not registered in Shopify due to API limitations)" : String) ≠ "" :=
  claim_C1 gEnvBase "custom" "desc" "de" [] "Hello World" "HTTP 500"
    rfl rfl rfl (by decide) (Or.inl (by decide)) (by decide) rfl

/-- Counterexample to claim C4 as stated: for the input `"Hello~~"`, which
contains the reserved separator, the code drops the separator instead of
reattaching the (empty) remaining portion — the output is the translated
first part alone, not the translated part followed by `"~~"` and the
input's (empty) portion after the first separator. -/
theorem claim_C4_counterexample :
    (GoogleVariant.translateMetafieldContent
      (fun text _ _ => Except.ok ("DE:" ++ text)) "Hello~~" "de").1 = "DE:Hello" ∧
    ("DE:Hello" : String) ≠ "DE:Hello" ++ "~~" ++ "" := by
  refine ⟨by decide, by decide⟩

/-- Claim C4 (amended): writing `parts` for the separator split of the
input, the adapter sends exactly the text preceding the first separator to
the API; when the rejoined remainder (the input's portion after the first
separator) is non-empty, the output is the translated text followed by the
separator and that remainder verbatim; when the remainder is empty — either
no separator, or nothing but emptiness after it — the output is the
translated text alone. -/
theorem claim_C4 (g : String → String → String → Except String String)
    (v targetLocale t : String)
    (hg : g ((jsSplit v "~~").headD "") "en" targetLocale = .ok t) :
    GoogleVariant.translateMetafieldContent g v targetLocale =
      (if (String.intercalate "~~" ((jsSplit v "~~").drop 1)).isEmpty then t
       else t ++ "~~" ++ String.intercalate "~~" ((jsSplit v "~~").drop 1),
       [CallEvent.googleTranslate ((jsSplit v "~~").headD "")]) := by
  unfold GoogleVariant.translateMetafieldContent
  simp only [hg]

/-- Witness for the amended C4, reproducing the specification's
composite-payload example. -/
theorem claim_C4_witness :
    GoogleVariant.translateMetafieldContent
        (fun text _ _ => Except.ok ("DE:" ++ text)) "Hello~~REF123~~X9" "de" =
      ("DE:Hello~~REF123~~X9", [CallEvent.googleTranslate "Hello"]) :=
  (claim_C4 (fun text _ _ => Except.ok ("DE:" ++ text)) "Hello~~REF123~~X9" "de"
    "DE:Hello" rfl).trans (by decide)

/-- Claim C6: the post-trigger recheck runs only when the auto-translation
trigger acknowledged.  In both variants: when the trigger yields nothing,
no settle delay and no recheck occur; when it acknowledges and the recheck
finds the dotted key, the orchestrator returns that value with
`locale = targetLocale`, `isTranslated = true` and the auto-translation
source tag after exactly one fixed 5000 ms delay and one recheck; when it
acknowledges and the recheck misses, the recheck still runs exactly once
(no poll loop, no retry). -/
theorem claim_C6
    (envN envF envM : GoogleVariant.Env) (denvN denvF denvM : DesignVariant.Env)
    (ns key targetLocale : String)
    (tsN tsF tsM tsF2 tsM2 dtsN dtsF dtsM dtsF2 dtsM2 : List Translation)
    (ovN ovF ovM dovN dovF dovM : String) (tF dtF : Translation)
    (hN1 : envN.checkResponse = .ok tsN)
    (hN2 : tsN.find? (fun t => t.key == dottedKey ns key) = none)
    (hN3 : envN.originalMetafield = .ok (some ovN))
    (hN4 : jsFalsy (some ovN) = false)
    (hN5 : jsFalsy (GoogleVariant.triggerTranslateAndAdapt envN).1 = true)
    (hF1 : envF.checkResponse = .ok tsF)
    (hF2 : tsF.find? (fun t => t.key == dottedKey ns key) = none)
    (hF3 : envF.originalMetafield = .ok (some ovF))
    (hF4 : jsFalsy (some ovF) = false)
    (hF5 : jsFalsy (GoogleVariant.triggerTranslateAndAdapt envF).1 = false)
    (hF6 : envF.recheckResponse = .ok tsF2)
    (hF7 : tsF2.find? (fun t => t.key == dottedKey ns key) = some tF)
    (hM1 : envM.checkResponse = .ok tsM)
    (hM2 : tsM.find? (fun t => t.key == dottedKey ns key) = none)
    (hM3 : envM.originalMetafield = .ok (some ovM))
    (hM4 : jsFalsy (some ovM) = false)
    (hM5 : jsFalsy (GoogleVariant.triggerTranslateAndAdapt envM).1 = false)
    (hM6 : envM.recheckResponse = .ok tsM2)
    (hM7 : tsM2.find? (fun t => t.key == dottedKey ns key) = none)
    (hdN1 : denvN.checkResponse = .ok dtsN)
    (hdN2 : dtsN.find? (fun t => t.key == dottedKey ns key) = none)
    (hdN3 : denvN.originalMetafield = .ok (some dovN))
    (hdN4 : jsFalsy (some dovN) = false)
    (hdN5 : jsFalsy (DesignVariant.triggerTranslateAndAdapt denvN.autoEndpointResponses) = true)
    (hdF1 : denvF.checkResponse = .ok dtsF)
    (hdF2 : dtsF.find? (fun t => t.key == dottedKey ns key) = none)
    (hdF3 : denvF.originalMetafield = .ok (some dovF))
    (hdF4 : jsFalsy (some dovF) = false)
    (hdF5 : jsFalsy (DesignVariant.triggerTranslateAndAdapt denvF.autoEndpointResponses) = false)
    (hdF6 : denvF.recheckResponse = .ok dtsF2)
    (hdF7 : dtsF2.find? (fun t => t.key == dottedKey ns key) = some dtF)
    (hdM1 : denvM.checkResponse = .ok dtsM)
    (hdM2 : dtsM.find? (fun t => t.key == dottedKey ns key) = none)
    (hdM3 : denvM.originalMetafield = .ok (some dovM))
    (hdM4 : jsFalsy (some dovM) = false)
    (hdM5 : jsFalsy (DesignVariant.triggerTranslateAndAdapt denvM.autoEndpointResponses) = false)
    (hdM6 : denvM.recheckResponse = .ok dtsM2)
    (hdM7 : dtsM2.find? (fun t => t.key == dottedKey ns key) = none) :
    (((GoogleVariant.getOrCreateMetafieldTranslation envN ns key targetLocale).2).countP isSleepEvent = 0 ∧
     ((GoogleVariant.getOrCreateMetafieldTranslation envN ns key targetLocale).2).countP isRecheckEvent = 0) ∧
    GoogleVariant.getOrCreateMetafieldTranslation envF ns key targetLocale =
      (.ok { value := tF.value, locale := targetLocale, isTranslated := true,
             source := "shopify_auto_translation", message := none },
       [.checkQuery, .originalQuery, .autoTrigger, .sleep 5000, .recheckQuery]) ∧
    (((GoogleVariant.getOrCreateMetafieldTranslation envM ns key targetLocale).2).countP isRecheckEvent = 1 ∧
     ((GoogleVariant.getOrCreateMetafieldTranslation envM ns key targetLocale).2).countP isSleepEvent = 1) ∧
    (((DesignVariant.getOrCreateMetafieldTranslation denvN ns key targetLocale).2).countP isSleepEvent = 0 ∧
     ((DesignVariant.getOrCreateMetafieldTranslation denvN ns key targetLocale).2).countP isRecheckEvent = 0) ∧
    DesignVariant.getOrCreateMetafieldTranslation denvF ns key targetLocale =
      (.ok { value := dtF.value, locale := targetLocale, isTranslated := true,
             source := "auto_translation_created", message := none },
       [.checkQuery, .originalQuery, .autoTrigger, .sleep 5000, .recheckQuery]) ∧
    (((DesignVariant.getOrCreateMetafieldTranslation denvM ns key targetLocale).2).countP isRecheckEvent = 1 ∧
     ((DesignVariant.getOrCreateMetafieldTranslation denvM ns key targetLocale).2).countP isSleepEvent = 1) := by
  have hcN := googleTranslateSteps_trace_countP envN ns key targetLocale ovN
  have hcM := googleTranslateSteps_trace_countP envM ns key targetLocale ovM
  refine ⟨?_, ?_, ?_, ?_, ?_, ?_⟩
  · unfold GoogleVariant.getOrCreateMetafieldTranslation
    rw [hN1]
    simp only [hN2, hN3, hN4, Bool.false_eq_true, if_false, Option.getD_some]
    simp [hN5, triggerTranslateAndAdapt_trace, List.countP_cons, List.countP_append,
      isSleepEvent, isRecheckEvent, hcN.1, hcN.2]
  · unfold GoogleVariant.getOrCreateMetafieldTranslation
    rw [hF1]
    simp only [hF2, hF3, hF4, Bool.false_eq_true, if_false, Option.getD_some]
    simp [hF5, hF6, hF7, triggerTranslateAndAdapt_trace]
  · unfold GoogleVariant.getOrCreateMetafieldTranslation
    rw [hM1]
    simp only [hM2, hM3, hM4, Bool.false_eq_true, if_false, Option.getD_some]
    simp [hM5, hM6, hM7, triggerTranslateAndAdapt_trace, List.countP_cons,
      List.countP_append, isSleepEvent, isRecheckEvent, hcM.1, hcM.2]
  · unfold DesignVariant.getOrCreateMetafieldTranslation
    rw [hdN1]
    simp only [hdN2, hdN3, hdN4, Bool.false_eq_true, if_false, Option.getD_some]
    simp [hdN5, mutationSteps_trace, List.countP_cons, List.countP_append,
      isSleepEvent, isRecheckEvent]
  · unfold DesignVariant.getOrCreateMetafieldTranslation
    rw [hdF1]
    simp only [hdF2, hdF3, hdF4, Bool.false_eq_true, if_false, Option.getD_some]
    simp [hdF5, hdF6, hdF7]
  · unfold DesignVariant.getOrCreateMetafieldTranslation
    rw [hdM1]
    simp only [hdM2, hdM3, hdM4, Bool.false_eq_true, if_false, Option.getD_some]
    simp [hdM5, hdM6, hdM7, mutationSteps_trace, List.countP_cons,
      List.countP_append, isSleepEvent, isRecheckEvent]

/-- Witness for C6 at concrete worlds for all six scenarios. -/
theorem claim_C6_witness :
    (((GoogleVariant.getOrCreateMetafieldTranslation gEnvBase "custom" "desc" "de").2).countP isSleepEvent = 0 ∧
     ((GoogleVariant.getOrCreateMetafieldTranslation gEnvBase "custom" "desc" "de").2).countP isRecheckEvent = 0) ∧
    GoogleVariant.getOrCreateMetafieldTranslation gEnvTriggerHit "custom" "desc" "de" =
      (.ok { value := "Hallo Welt", locale := "de", isTranslated := true,
             source := "shopify_auto_translation", message := none },
       [.checkQuery, .originalQuery, .autoTrigger, .sleep 5000, .recheckQuery]) ∧
    (((GoogleVariant.getOrCreateMetafieldTranslation gEnvTriggerMiss "custom" "desc" "de").2).countP isRecheckEvent = 1 ∧
     ((GoogleVariant.getOrCreateMetafieldTranslation gEnvTriggerMiss "custom" "desc" "de").2).countP isSleepEvent = 1) ∧
    (((DesignVariant.getOrCreateMetafieldTranslation dEnvBase "custom" "desc" "de").2).countP isSleepEvent = 0 ∧
     ((DesignVariant.getOrCreateMetafieldTranslation dEnvBase "custom" "desc" "de").2).countP isRecheckEvent = 0) ∧
    DesignVariant.getOrCreateMetafieldTranslation dEnvTriggerHit "custom" "desc" "de" =
      (.ok { value := "Hallo Welt", locale := "de", isTranslated := true,
             source := "auto_translation_created", message := none },
       [.checkQuery, .originalQuery, .autoTrigger, .sleep 5000, .recheckQuery]) ∧
    (((DesignVariant.getOrCreateMetafieldTranslation dEnvTriggerMiss "custom" "desc" "de").2).countP isRecheckEvent = 1 ∧
     ((DesignVariant.getOrCreateMetafieldTranslation dEnvTriggerMiss "custom" "desc" "de").2).countP isSleepEvent = 1) :=
  claim_C6 gEnvBase gEnvTriggerHit gEnvTriggerMiss dEnvBase dEnvTriggerHit dEnvTriggerMiss
    "custom" "desc" "de"
    [] [] [] [sampleTranslation] [] [] [] [] [sampleTranslation] []
    "Hello World" "Hello World" "Hello World" "Red shoes" "Red shoes" "Red shoes"
    sampleTranslation sampleTranslation
    rfl rfl rfl (by decide) (by decide)
    rfl rfl rfl (by decide) (by decide) rfl (by decide)
    rfl rfl rfl (by decide) (by decide) rfl rfl
    rfl rfl rfl (by decide) (by decide)
    rfl rfl rfl (by decide) (by decide) rfl (by decide)
    rfl rfl rfl (by decide) (by decide) rfl rfl

/-- When the design-variant orchestrator finds no existing translation, a
truthy original value, and the auto-translation attempt yields no result,
it hands over to the mutation step, and the mutation POST submitting the
original value appears in its trace. -/
theorem design_reaches_mutation (env : DesignVariant.Env) (ns key targetLocale : String)
    (ts : List Translation) (ov : String)
    (h1 : env.checkResponse = .ok ts)
    (h2 : ts.find? (fun t => t.key == dottedKey ns key) = none)
    (h3 : env.originalMetafield = .ok (some ov))
    (h4 : jsFalsy (some ov) = false)
    (hAuto : jsFalsy (DesignVariant.triggerTranslateAndAdapt env.autoEndpointResponses) = true ∨
      ∃ ts2, env.recheckResponse = .ok ts2 ∧
        ts2.find? (fun t => t.key == dottedKey ns key) = none) :
    (DesignVariant.getOrCreateMetafieldTranslation env ns key targetLocale).1 =
      (DesignVariant.mutationSteps env ov targetLocale).1 ∧
    CallEvent.mutationPost ov ∈ (DesignVariant.getOrCreateMetafieldTranslation env ns key targetLocale).2 := by
  unfold DesignVariant.getOrCreateMetafieldTranslation
  rw [h1]
  simp only [h2, h3, h4, Bool.false_eq_true, if_false, Option.getD_some]
  by_cases htr : jsFalsy (DesignVariant.triggerTranslateAndAdapt env.autoEndpointResponses) = true
  · simp [htr, mutationSteps_trace]
  · rw [Bool.not_eq_true] at htr
    rcases hAuto with hA | ⟨ts2, hr, hfind2⟩
    · rw [htr] at hA
      exact absurd hA (by simp)
    · simp [htr, hr, hfind2, mutationSteps_trace]

/-- A thrown mutation POST makes the design-variant mutation step fall back
to the original value with locale forced to `en`. -/
theorem mutationSteps_transport_error (env : DesignVariant.Env) (ov targetLocale e : String)
    (h : env.mutationResponse = .error e) :
    (DesignVariant.mutationSteps env ov targetLocale).1 =
      .ok { value := ov, locale := "en", isTranslated := false,
            source := "original_fallback",
            message := some "Could not create translation automatically. Please create it manually in Translate & Adapt app." } := by
  unfold DesignVariant.mutationSteps DesignVariant.createTranslationWithMutation
  simp only [h]

/-- A mutation response body carrying top-level errors makes the
design-variant mutation step fall back to the original value. -/
theorem mutationSteps_body_errors (env : DesignVariant.Env) (ov targetLocale : String)
    (body : GraphQLBody) (errs : List String)
    (h : env.mutationResponse = .ok body) (he : body.errors = some errs) :
    (DesignVariant.mutationSteps env ov targetLocale).1 =
      .ok { value := ov, locale := "en", isTranslated := false,
            source := "original_fallback",
            message := some "Could not create translation automatically. Please create it manually in Translate & Adapt app." } := by
  unfold DesignVariant.mutationSteps DesignVariant.createTranslationWithMutation
  simp [h, he]

/-- A clean mutation response body makes the design-variant mutation step
report `mutation_created` with the original value. -/
theorem mutationSteps_clean (env : DesignVariant.Env) (ov targetLocale : String)
    (body : GraphQLBody)
    (h : env.mutationResponse = .ok body) (he : body.errors = none) :
    (DesignVariant.mutationSteps env ov targetLocale).1 =
      .ok { value := ov, locale := targetLocale, isTranslated := false,
            source := "mutation_created",
            message := some "Translation entry created. You may need to edit it manually in Translate & Adapt app." } := by
  unfold DesignVariant.mutationSteps DesignVariant.createTranslationWithMutation
  simp [h, he]

/-- Claim C9: in the design variant, once the flow reaches the mutation
step (no existing translation, truthy original value, no auto-translation
result), a failed structured mutation — thrown POST or a body with
top-level errors — yields the original value with
`source = original_fallback`, `isTranslated = false`, locale forced to the
source locale `en` and the manual-creation message, while a successful one
yields `isTranslated = false`, `source = mutation_created` with the
manual-edit message; in both cases the mutation was posted with the
original untranslated value. -/
theorem claim_C9 (envE envU envS : DesignVariant.Env) (ns key targetLocale : String)
    (tsE tsU tsS : List Translation) (ovE ovU ovS e : String)
    (bodyU bodyS : GraphQLBody) (errsU : List String)
    (hE1 : envE.checkResponse = .ok tsE)
    (hE2 : tsE.find? (fun t => t.key == dottedKey ns key) = none)
    (hE3 : envE.originalMetafield = .ok (some ovE))
    (hE4 : jsFalsy (some ovE) = false)
    (hE5 : jsFalsy (DesignVariant.triggerTranslateAndAdapt envE.autoEndpointResponses) = true ∨
      ∃ ts2, envE.recheckResponse = .ok ts2 ∧
        ts2.find? (fun t => t.key == dottedKey ns key) = none)
    (hE6 : envE.mutationResponse = .error e)
    (hU1 : envU.checkResponse = .ok tsU)
    (hU2 : tsU.find? (fun t => t.key == dottedKey ns key) = none)
    (hU3 : envU.originalMetafield = .ok (some ovU))
    (hU4 : jsFalsy (some ovU) = false)
    (hU5 : jsFalsy (DesignVariant.triggerTranslateAndAdapt envU.autoEndpointResponses) = true ∨
      ∃ ts2, envU.recheckResponse = .ok ts2 ∧
        ts2.find? (fun t => t.key == dottedKey ns key) = none)
    (hU6 : envU.mutationResponse = .ok bodyU)
    (hU7 : bodyU.errors = some errsU)
    (hS1 : envS.checkResponse = .ok tsS)
    (hS2 : tsS.find? (fun t => t.key == dottedKey ns key) = none)
    (hS3 : envS.originalMetafield = .ok (some ovS))
    (hS4 : jsFalsy (some ovS) = false)
    (hS5 : jsFalsy (DesignVariant.triggerTranslateAndAdapt envS.autoEndpointResponses) = true ∨
      ∃ ts2, envS.recheckResponse = .ok ts2 ∧
        ts2.find? (fun t => t.key == dottedKey ns key) = none)
    (hS6 : envS.mutationResponse = .ok bodyS)
    (hS7 : bodyS.errors = none) :
    (DesignVariant.getOrCreateMetafieldTranslation envE ns key targetLocale).1 =
      .ok { value := ovE, locale := "en", isTranslated := false,
            source := "original_fallback",
            message := some "Could not create translation automatically. Please create it manually in Translate & Adapt app." } ∧
    CallEvent.mutationPost ovE ∈ (DesignVariant.getOrCreateMetafieldTranslation envE ns key targetLocale).2 ∧
    (DesignVariant.getOrCreateMetafieldTranslation envU ns key targetLocale).1 =
      .ok { value := ovU, locale := "en", isTranslated := false,
            source := "original_fallback",
            message := some "Could not create translation automatically. Please create it manually in Translate & Adapt app." } ∧
    (DesignVariant.getOrCreateMetafieldTranslation envS ns key targetLocale).1 =
      .ok { value := ovS, locale := targetLocale, isTranslated := false,
            source := "mutation_created",
            message := some "Translation entry created. You may need to edit it manually in Translate & Adapt app." } ∧
    CallEvent.mutationPost ovS ∈ (DesignVariant.getOrCreateMetafieldTranslation envS ns key targetLocale).2 := by
  obtain ⟨hEq, hEm⟩ := design_reaches_mutation envE ns key targetLocale tsE ovE hE1 hE2 hE3 hE4 hE5
  obtain ⟨hUq, _⟩ := design_reaches_mutation envU ns key targetLocale tsU ovU hU1 hU2 hU3 hU4 hU5
  obtain ⟨hSq, hSm⟩ := design_reaches_mutation envS ns key targetLocale tsS ovS hS1 hS2 hS3 hS4 hS5
  refine ⟨?_, hEm, ?_, ?_, hSm⟩
  · rw [hEq, mutationSteps_transport_error envE ovE targetLocale e hE6]
  · rw [hUq, mutationSteps_body_errors envU ovU targetLocale bodyU errsU hU6 hU7]
  · rw [hSq, mutationSteps_clean envS ovS targetLocale bodyS hS6 hS7]

/-- Witness for C9 at concrete worlds for the three mutation outcomes. -/
theorem claim_C9_witness :
    (DesignVariant.getOrCreateMetafieldTranslation dEnvBase "custom" "desc" "de").1 =
      .ok { value := "Red shoes", locale := "en", isTranslated := false,
            source := "original_fallback",
            message := some "Could not create translation automatically. Please create it manually in Translate & Adapt app." } ∧
    CallEvent.mutationPost "Red shoes" ∈ (DesignVariant.getOrCreateMetafieldTranslation dEnvBase "custom" "desc" "de").2 ∧
    (DesignVariant.getOrCreateMetafieldTranslation dEnvMutBodyErrors "custom" "desc" "de").1 =
      .ok { value := "Red shoes", locale := "en", isTranslated := false,
            source := "original_fallback",
            message := some "Could not create translation automatically. Please create it manually in Translate & Adapt app." } ∧
    (DesignVariant.getOrCreateMetafieldTranslation dEnvMutOk "custom" "desc" "de").1 =
      .ok { value := "Red shoes", locale := "de", isTranslated := false,
            source := "mutation_created",
            message := some "Translation entry created. You may need to edit it manually in Translate & Adapt app." } ∧
    CallEvent.mutationPost "Red shoes" ∈ (DesignVariant.getOrCreateMetafieldTranslation dEnvMutOk "custom" "desc" "de").2 :=
  claim_C9 dEnvBase dEnvMutBodyErrors dEnvMutOk "custom" "desc" "de"
    [] [] [] "Red shoes" "Red shoes" "Red shoes" "HTTP 500"
    { errors := some ["access denied"] } { errors := none } ["access denied"]
    rfl rfl rfl (by decide) (Or.inl (by decide)) rfl
    rfl rfl rfl (by decide) (Or.inl (by decide)) rfl rfl
    rfl rfl rfl (by decide) (Or.inl (by decide)) rfl rfl
